import Mathlib

/-!
Verification of the waterworks graph engine (reversible-transform pipelines).

The source repository contains `waterwork.py` (the graph engine: pour/pump
drivers, tank ordering, merge/combine composition), `slot.py` (the Slot graph
part), `tank_defs.py` (typed tank factory functions) and
`datetime_transform.py` (the DateTimeTransform facade).  This file gives a
shallow embedding of those parts and settles the frozen claims about them.

The code runs on Python 2: `sorted(xs, cmp=f)` is CPython timsort driven by a
three-way comparator.  For fewer than 64 elements timsort performs a single
`count_run` pass (reversing an initial strictly-descending run) followed by
binary-insertion of the remaining elements; that algorithm is modelled exactly
below, because `Waterwork._pour_tank_order` feeds timsort an inconsistent
comparator and the resulting order is what the ordering claims are about.

Values flowing through a waterwork are opaque payloads; they are modelled as
`Int`.  A `val` attribute that Python holds as `None` is modelled as
`Option.none`.  Tank subclasses (`add`, `clone`, ...) are absent from the
provided sources, so a tank is modelled from the spec tank contract: a pair of
functions from total slot assignments to total tube assignments; invoking a
tank whose slot still holds `None` is modelled as a runtime error (the missing
concrete tanks apply numpy arithmetic to the value, which raises on `None`).
-/

namespace Waterworks

/-! ## CPython list sort with a `cmp` comparator (n < 64: one run + binary insertion) -/

/-- `ISLT(a, b)` of CPython's listsort with a user comparator: `cmp a b < 0`. -/
def cmpLt (cmp : α → α → Int) (a b : α) : Bool := cmp a b < 0

/-- Length of the initial ascending run (`a[i+1] >= a[i]`, i.e. not `ISLT`). -/
def ascRunLen (cmp : α → α → Int) : α → List α → Nat
  | _, [] => 1
  | prev, x :: xs => if cmpLt cmp x prev then 1 else 1 + ascRunLen cmp x xs

/-- Length of the initial strictly descending run (`a[i+1] < a[i]`). -/
def descRunLen (cmp : α → α → Int) : α → List α → Nat
  | _, [] => 1
  | prev, x :: xs => if cmpLt cmp x prev then 1 + descRunLen cmp x xs else 1

/-- CPython `count_run`: length of the initial run and whether it descends. -/
def countRun (cmp : α → α → Int) : List α → Nat × Bool
  | [] => (0, false)
  | [_] => (1, false)
  | a :: b :: rest =>
    if cmpLt cmp b a then (1 + descRunLen cmp b rest, true)
    else (1 + ascRunLen cmp b rest, false)

/-- The loop of CPython `binarysort`'s binary search, with explicit fuel
(the window width shrinks by at least one per iteration, so `r - l` units of
fuel always suffice): `while l < r: p = (l+r)/2; if pivot < s[p] then r = p
else l = p+1`. -/
def binSearchLoop (cmp : α → α → Int) (s : List α) (pivot : α) :
    Nat → Nat → Nat → Nat
  | 0, l, _ => l
  | fuel + 1, l, r =>
    if l < r then
      let p := (l + r) / 2
      match s[p]? with
      | none => l
      | some sp =>
        if cmpLt cmp pivot sp then
          binSearchLoop cmp s pivot fuel l p
        else
          binSearchLoop cmp s pivot fuel (p + 1) r
    else l

/-- Binary search of CPython `binarysort`: in the sorted prefix `s`, find the
insertion index of `pivot` in the window `[l, r)`. -/
def binSearchPos (cmp : α → α → Int) (s : List α) (pivot : α) (l r : Nat) : Nat :=
  binSearchLoop cmp s pivot (r - l) l r

/-- Insert `x` into the sorted prefix `s` at the position found by CPython's
binary search. -/
def binInsert (cmp : α → α → Int) (s : List α) (x : α) : List α :=
  let i := binSearchPos cmp s x 0 s.length
  s.take i ++ x :: s.drop i

/-- CPython `listsort` with a comparator, for fewer than 64 elements (the only
regime the repository exercises): one `count_run`, reversal of a descending
run, then binary insertion of every remaining element. -/
def pySort (cmp : α → α → Int) (xs : List α) : List α :=
  let (n, desc) := countRun cmp xs
  let run := if desc then (xs.take n).reverse else xs.take n
  (xs.drop n).foldl (binInsert cmp) run

/-- Lexicographic comparison on character lists (Python `<` on strings). -/
def strLtL : List Char → List Char → Bool
  | [], [] => false
  | [], _ :: _ => true
  | _ :: _, [] => false
  | a :: as, b :: bs =>
    if a.toNat < b.toNat then true
    else if b.toNat < a.toNat then false
    else strLtL as bs

/-- Python `<` on strings: lexicographic comparison of the character
sequences. -/
def strLt (a b : String) : Bool := strLtL a.data b.data

/-- Stable sort by a string key (Python `sorted` with a consistent total
order); used for the name pre-sort `sorted([self.tanks[t] for t in self.tanks])`. -/
def insertByKey (key : α → String) (x : α) : List α → List α
  | [] => [x]
  | y :: ys => if strLt (key x) (key y) then x :: y :: ys else y :: insertByKey key x ys

/-- Stable insertion sort by key; agrees with Python `sorted` under a
consistent comparator. -/
def sortByKey (key : α → String) (xs : List α) : List α :=
  xs.foldl (fun acc x => insertByKey key x acc) []

/-! ## Graph model: tanks, slots, tubes, placeholders, the Waterwork -/

/-- Python exceptions raised by the modelled code, abstracted to their kind.
`unknownFunnel` is the `ValueError("... is not a supported input into pour
function")` (the spec's *UnknownFunnel*), `missingInput` the
`ValueError("All funnels/taps must have a set value ...")`, `badKeyType` the
`ValueError("... is an invalid key_type.")` (the spec's *BadKeyMode*),
`tankRunError` the exception a concrete tank raises when invoked on a `None`
slot value, and the remaining kinds are the builtin Python exceptions of the
same name. -/
inductive Err where
  | unknownFunnel
  | missingInput
  | badKeyType
  | tankRunError
  | keyError
  | attributeError
  | typeError
  | ambiguousTruth
  | emptyFit
  | sameName
deriving DecidableEq, Repr

/-- A slot or tube is addressed inside its waterwork by the pair
`(owning tank name, key)`; this pair is stable under renaming and is also what
`get_tuple` returns. -/
abbrev Id2 := String × String

/-- The `.tube` attribute of a slot: the upstream part feeding it, either a
tube of another tank or a Placeholder (a Placeholder behaves as a tube for
linking purposes), or `none` for a slot left free. -/
inductive UpLink where
  | tube (t : Id2)
  | ph (name : String)
deriving DecidableEq, Repr

/-- Modelled from the spec: the tank contract (`tank.py` is not among the
provided sources).  A tank declares `slot_keys` and `tube_keys` and carries a
`pour` and a `pump` function, each total on total assignments of its keys;
`Tank.pour`/`Tank.pump` also write their results into the tank's own
tubes/slots, which the drivers below perform. -/
structure Tank where
  name : String
  slotKeys : List String
  tubeKeys : List String
  pourFn : (String → Int) → (String → Int)
  pumpFn : (String → Int) → (String → Int)

/-- The Waterwork graph: the name-keyed dictionaries `tanks`, `slots`,
`tubes`, `funnels`, `taps`, `placeholders` held by the Python object (as
association lists in dictionary iteration order, values being the addressed
parts), together with the link attributes of the parts (`slot.tube`,
`tube.slot`, `placeholder.slot`). -/
structure Waterwork where
  name : String
  tanksD : List (String × Tank)
  slotsD : List (String × Id2)
  tubesD : List (String × Id2)
  funnelsD : List (String × Id2)
  tapsD : List (String × Id2)
  placeholdersD : List (String × String)
  slotUp : Id2 → Option UpLink
  tubeDown : Id2 → Option Id2
  phSlotOf : String → Option Id2

/-- The transient `val` attributes of all slots, tubes and placeholders
(`None` modelled as `Option.none`). -/
structure VState where
  slotVal : Id2 → Option Int
  tubeVal : Id2 → Option Int
  phVal : String → Option Int

/-- The all-`None` value state (a freshly built graph). -/
def VState.empty : VState :=
  { slotVal := fun _ => none, tubeVal := fun _ => none, phVal := fun _ => none }

def setSlotVal (st : VState) (s : Id2) (v : Option Int) : VState :=
  { st with slotVal := fun p => if p = s then v else st.slotVal p }

def setTubeVal (st : VState) (t : Id2) (v : Option Int) : VState :=
  { st with tubeVal := fun p => if p = t then v else st.tubeVal p }

def setPhVal (st : VState) (n : String) (v : Option Int) : VState :=
  { st with phVal := fun p => if p = n then v else st.phVal p }

/-- A key of the `funnel_dict` / `tap_dict` argument of `pour`/`pump`: a full
name string, a `(tank name, key)` tuple, a Slot or Tube object, or a
Placeholder object. -/
inductive InKey where
  | name (s : String)
  | tup (t : Id2)
  | obj (t : Id2)
  | phObj (p : String)
deriving DecidableEq, Repr

/-- A key of the result dictionary of `pour`/`pump`: the part object itself
(`key_type` `obj` for pour, `slot` for pump), its `(tank name, key)` tuple, or
its full name string. -/
inductive RKey where
  | obj (t : Id2)
  | tup (t : Id2)
  | str (s : String)
deriving DecidableEq, Repr

/-! ## Part lookup (`maybe_get_placeholder` / `maybe_get_slot` / `maybe_get_tube`) -/

/-- `Waterwork.maybe_get_placeholder`: a string that is a key of
`self.placeholders`, or a Placeholder object (returned unchecked); anything
else gives `None`. -/
def maybeGetPlaceholder (ww : Waterwork) (k : InKey) : Option String :=
  match k with
  | .name s => if (ww.placeholdersD.lookup s).isSome then some s else none
  | .phObj p => some p
  | _ => none

/-- `Waterwork.maybe_get_slot` with a single argument: a string is resolved
through `self.slots`; a `(tank, key)` tuple is resolved through `self.tanks`
and the tank's slot keys, but when the tank name is *not* in `self.tanks`
control falls into `elif isinstance(tank, sl.slot)` and the slot module has
no attribute `slot` (the class is `Slot`), so the call raises
`AttributeError` instead of returning `None`.  Any other single argument —
including a Slot object — falls through the argument-parsing chain to
`return None`. -/
def maybeGetSlot (ww : Waterwork) (k : InKey) : Except Err (Option Id2) :=
  match k with
  | .name s => .ok (ww.slotsD.lookup s)
  | .tup (t, sk) =>
    match ww.tanksD.lookup t with
    | some tank => .ok (if sk ∈ tank.slotKeys then some (t, sk) else none)
    | none => .error .attributeError
  | _ => .ok none

/-- `Waterwork.maybe_get_tube` with a single argument: a `(tank, key)` tuple
resolved through `self.tanks` and the tank's tube keys, or a string resolved
through `self.tubes`; any other single argument — including a Tube object —
falls through to `return None`. -/
def maybeGetTube (ww : Waterwork) (k : InKey) : Option Id2 :=
  match k with
  | .name s => ww.tubesD.lookup s
  | .tup (t, tk) =>
    match ww.tanksD.lookup t with
    | some tank => if tk ∈ tank.tubeKeys then some (t, tk) else none
    | none => none
  | _ => none

/-! ## Dependencies and tank ordering -/

/-- Modelled from the spec: `Tank.get_pour_dependencies` (the Tank class is
not among the provided sources) — the set of tanks whose tubes feed this
tank's slots, here as the list of their names read off the slot links. -/
def pourDepNames (ww : Waterwork) (t : Tank) : List String :=
  t.slotKeys.filterMap fun k =>
    match ww.slotUp (t.name, k) with
    | some (.tube (tn, _)) => some tn
    | _ => none

/-- Modelled from the spec: `Tank.get_pump_dependencies` — the set of tanks
whose slots are fed by this tank's tubes. -/
def pumpDepNames (ww : Waterwork) (t : Tank) : List String :=
  t.tubeKeys.filterMap fun k =>
    match ww.tubeDown (t.name, k) with
    | some (tn, _) => some tn
    | _ => none

/-- The comparator of `_pour_tank_order`:
`lambda a, b: 1 if b in a.get_pour_dependencies() else -1`. -/
def pourCmp (ww : Waterwork) (a b : Tank) : Int :=
  if b.name ∈ pourDepNames ww a then 1 else -1

/-- The comparator of `_pump_tank_order`:
`lambda a, b: 0 if b in a.get_pump_dependencies() else -1`. -/
def pumpCmp (ww : Waterwork) (a b : Tank) : Int :=
  if b.name ∈ pumpDepNames ww a then 0 else -1

/-- `Waterwork._pour_tank_order`: name-sort the tank objects, then re-sort
with the dependency comparator. -/
def pourTankOrder (ww : Waterwork) : List Tank :=
  pySort (pourCmp ww) (sortByKey Tank.name (ww.tanksD.map Prod.snd))

/-- `Waterwork._pump_tank_order`: name-sort the tank objects, then re-sort
with the pump dependency comparator. -/
def pumpTankOrder (ww : Waterwork) : List Tank :=
  pySort (pumpCmp ww) (sortByKey Tank.name (ww.tanksD.map Prod.snd))

/-- Index of the tank with the given name in an order (length if absent). -/
def orderIdx (order : List Tank) (n : String) : Nat :=
  match order.findIdx? (fun t => t.name = n) with
  | some i => i
  | none => order.length

/-- A tank order respects the pour dependencies when every dependency of a
tank appears strictly before the tank itself. -/
def topoOkB (ww : Waterwork) (order : List Tank) : Bool :=
  order.all fun t =>
    (pourDepNames ww t).all fun d => orderIdx order d < orderIdx order t.name

/-! ## The pour driver (`Waterwork.pour`) -/

/-- One iteration of pour's input-binding loop.  The source evaluates
`ph_obj = self.maybe_get_placeholder(ph)` and `sl_obj =
self.maybe_get_slot(ph)` *before* branching, so `maybe_get_slot`'s
`AttributeError` on an unknown-tank tuple propagates unconditionally.
Otherwise: resolve the key as a placeholder, else as a slot, set the
resolved part's `val` and propagate it to the linked slot (for a
placeholder) or to the linked upstream tube or placeholder (for a slot, via
`sl_obj.tube.set_val`); an unresolved key raises the *UnknownFunnel*
`ValueError`. -/
def bindPourEntry (ww : Waterwork) (st : VState) (k : InKey) (v : Option Int) :
    Except Err VState :=
  let phR := maybeGetPlaceholder ww k
  match maybeGetSlot ww k with
  | .error e => .error e
  | .ok slR =>
    match phR with
    | some p =>
      let st1 := setPhVal st p v
      match ww.phSlotOf p with
      | some s => .ok (setSlotVal st1 s v)
      | none => .ok st1
    | none =>
      match slR with
      | some s =>
        let st1 := setSlotVal st s v
        match ww.slotUp s with
        | some (.tube t) => .ok (setTubeVal st1 t v)
        | some (.ph p) => .ok (setPhVal st1 p v)
        | none => .ok st1
      | none => .error .unknownFunnel

/-- Pour's input-binding loop over the supplied `funnel_dict` (in dictionary
iteration order).  Mutations made before a failing entry persist, so the
partially updated state is returned alongside the error. -/
def bindPour (ww : Waterwork) (st : VState) :
    List (InKey × Option Int) → VState × Except Err Unit
  | [] => (st, .ok ())
  | (k, v) :: rest =>
    match bindPourEntry ww st k v with
    | .ok st1 => bindPour ww st1 rest
    | .error e => (st, .error e)

/-- Pour's pre-execution check: every entry of `self.funnels` must hold a
value; the first funnel found with `val = None` raises *MissingInput*. -/
def funnelCheck (ww : Waterwork) (st : VState) : Except Err Unit :=
  match ww.funnelsD.find? (fun f => (st.slotVal f.2).isNone) with
  | some _ => .error .missingInput
  | none => .ok ()

/-- Execute one tank in the pour direction: collect its slot values as
`kwargs`, invoke `tank.pour` (which writes each result into the tank's own
tubes — modelled from the spec's tank contract), then mirror every produced
tube value into the linked downstream slot.  Invoking the tank with a slot
still at `None` is the modelled tank-level runtime error. -/
def runTankPour (ww : Waterwork) (t : Tank) (st : VState) : Except Err VState :=
  if t.slotKeys.all (fun k => (st.slotVal (t.name, k)).isSome) then
    let out := t.pourFn fun k => (st.slotVal (t.name, k)).getD 0
    let st1 := t.tubeKeys.foldl
      (fun acc k => setTubeVal acc (t.name, k) (some (out k))) st
    let st2 := t.tubeKeys.foldl
      (fun acc k =>
        match ww.tubeDown (t.name, k) with
        | some s => setSlotVal acc s (some (out k))
        | none => acc) st1
    .ok st2
  else .error .tankRunError

/-- Execute a list of tanks in order in the pour direction; the state reached
before a failing tank persists. -/
def runTanksPour (ww : Waterwork) (st : VState) :
    List Tank → VState × Except Err Unit
  | [] => (st, .ok ())
  | t :: rest =>
    match runTankPour ww t st with
    | .ok st1 => runTanksPour ww st1 rest
    | .error e => (st, .error e)

/-- Pour's result-collection loop over `self.taps`: key the returned
dictionary by tube object (`key_type = 'obj'`), `(tank, key)` tuple
(`'tuple'`) or full name (`'str'`); any other `key_type` raises the
*BadKeyMode* `ValueError`. -/
def pourRStep (st : VState) (keyType : String) (acc : List (RKey × Option Int))
    (tap : String × Id2) : Except Err (List (RKey × Option Int)) :=
  if keyType = "obj" then .ok (acc ++ [(RKey.obj tap.2, st.tubeVal tap.2)])
  else if keyType = "tuple" then .ok (acc ++ [(RKey.tup tap.2, st.tubeVal tap.2)])
  else if keyType = "str" then .ok (acc ++ [(RKey.str tap.1, st.tubeVal tap.2)])
  else .error .badKeyType

/-- Pour's result dictionary: the collection loop folded over `self.taps`. -/
def buildPourR (ww : Waterwork) (st : VState) (keyType : String) :
    Except Err (List (RKey × Option Int)) :=
  ww.tapsD.foldlM (pourRStep st keyType) []

/-- `Waterwork.pour(funnel_dict, key_type)`: bind the inputs, check all
funnels are set, run the tanks in `_pour_tank_order`, then build the result
dictionary.  The value state is threaded through and returned even when an
exception is raised, because the Python mutations performed before the raise
persist. -/
def pour (ww : Waterwork) (st : VState) (funnelDict : List (InKey × Option Int))
    (keyType : String) : VState × Except Err (List (RKey × Option Int)) :=
  match bindPour ww st funnelDict with
  | (st1, .error e) => (st1, .error e)
  | (st1, .ok ()) =>
    match funnelCheck ww st1 with
    | .error e => (st1, .error e)
    | .ok () =>
      match runTanksPour ww st1 (pourTankOrder ww) with
      | (st2, .error e) => (st2, .error e)
      | (st2, .ok ()) =>
        match buildPourR ww st2 keyType with
        | .ok r => (st2, .ok r)
        | .error e => (st2, .error e)

/-- `Waterwork.pour` called without an explicit `key_type`: the Python
parameter defaults to `'tube'`. -/
def pourDefault (ww : Waterwork) (st : VState)
    (funnelDict : List (InKey × Option Int)) :
    VState × Except Err (List (RKey × Option Int)) :=
  pour ww st funnelDict "tube"

/-! ## The pump driver (`Waterwork.pump`) -/

/-- One iteration of pump's input-binding loop: resolve the key through
`maybe_get_tube` and set the tube's `val` (no propagation in this direction);
an unresolved key — including a Tube object — raises the unsupported-input
`ValueError`. -/
def bindPumpEntry (ww : Waterwork) (st : VState) (k : InKey) (v : Option Int) :
    Except Err VState :=
  match maybeGetTube ww k with
  | some t => .ok (setTubeVal st t v)
  | none => .error .unknownFunnel

/-- Pump's input-binding loop over the supplied `tap_dict`. -/
def bindPump (ww : Waterwork) (st : VState) :
    List (InKey × Option Int) → VState × Except Err Unit
  | [] => (st, .ok ())
  | (k, v) :: rest =>
    match bindPumpEntry ww st k v with
    | .ok st1 => bindPump ww st1 rest
    | .error e => (st, .error e)

/-- Pump's pre-execution check: every entry of `self.taps` must hold a value;
the first tap found with `val = None` raises *MissingInput*. -/
def tapCheck (ww : Waterwork) (st : VState) : Except Err Unit :=
  match ww.tapsD.find? (fun f => (st.tubeVal f.2).isNone) with
  | some _ => .error .missingInput
  | none => .ok ()

/-- Execute one tank in the pump direction: collect its tube values as
`kwargs`, invoke `tank.pump` (which writes each result into the tank's own
slots — modelled from the spec's tank contract), then mirror every produced
slot value into the linked upstream tube or placeholder
(`tank.slots[key].tube.set_val`). -/
def runTankPump (ww : Waterwork) (t : Tank) (st : VState) : Except Err VState :=
  if t.tubeKeys.all (fun k => (st.tubeVal (t.name, k)).isSome) then
    let out := t.pumpFn fun k => (st.tubeVal (t.name, k)).getD 0
    let st1 := t.slotKeys.foldl
      (fun acc k => setSlotVal acc (t.name, k) (some (out k))) st
    let st2 := t.slotKeys.foldl
      (fun acc k =>
        match ww.slotUp (t.name, k) with
        | some (.tube tu) => setTubeVal acc tu (some (out k))
        | some (.ph p) => setPhVal acc p (some (out k))
        | none => acc) st1
    .ok st2
  else .error .tankRunError

/-- Execute a list of tanks in order in the pump direction. -/
def runTanksPump (ww : Waterwork) (st : VState) :
    List Tank → VState × Except Err Unit
  | [] => (st, .ok ())
  | t :: rest =>
    match runTankPump ww t st with
    | .ok st1 => runTanksPump ww st1 rest
    | .error e => (st, .error e)

/-- Pump's result-collection loop over `self.funnels`: key the returned
dictionary by slot object (`key_type = 'slot'`), `(tank, key)` tuple
(`'tuple'`) or full name (`'str'`); any other `key_type` — including `'obj'`
— raises the *BadKeyMode* `ValueError`. -/
def pumpRStep (st : VState) (keyType : String) (acc : List (RKey × Option Int))
    (f : String × Id2) : Except Err (List (RKey × Option Int)) :=
  if keyType = "slot" then .ok (acc ++ [(RKey.obj f.2, st.slotVal f.2)])
  else if keyType = "tuple" then .ok (acc ++ [(RKey.tup f.2, st.slotVal f.2)])
  else if keyType = "str" then .ok (acc ++ [(RKey.str f.1, st.slotVal f.2)])
  else .error .badKeyType

/-- Pump's result dictionary: the collection loop folded over `self.funnels`. -/
def buildPumpR (ww : Waterwork) (st : VState) (keyType : String) :
    Except Err (List (RKey × Option Int)) :=
  ww.funnelsD.foldlM (pumpRStep st keyType) []

/-- `Waterwork.pump(tap_dict, key_type)`: bind the tap values, check all taps
are set, run the tanks in `_pump_tank_order`, then build the result
dictionary of funnel values. -/
def pump (ww : Waterwork) (st : VState) (tapDict : List (InKey × Option Int))
    (keyType : String) : VState × Except Err (List (RKey × Option Int)) :=
  match bindPump ww st tapDict with
  | (st1, .error e) => (st1, .error e)
  | (st1, .ok ()) =>
    match tapCheck ww st1 with
    | .error e => (st1, .error e)
    | .ok () =>
      match runTanksPump ww st1 (pumpTankOrder ww) with
      | (st2, .error e) => (st2, .error e)
      | (st2, .ok ()) =>
        match buildPumpR ww st2 keyType with
        | .ok r => (st2, .ok r)
        | .error e => (st2, .error e)

/-- Run `pour` with string result keys and feed the resulting tap dictionary
straight back into `pump`, as the round-trip property `pump(pour(x)) = x`
prescribes; returns pump's funnel dictionary, or the first exception raised. -/
def pumpAfterPour (ww : Waterwork) (st : VState)
    (funnelDict : List (InKey × Option Int)) :
    Except Err (List (RKey × Option Int)) :=
  match pour ww st funnelDict "str" with
  | (st1, .ok r) =>
    let tapDict := r.map fun e =>
      (match e.1 with
       | .str s => InKey.name s
       | .tup t => InKey.tup t
       | .obj t => InKey.obj t, e.2)
    (pump ww st1 tapDict "str").2
  | (_, .error e) => .error e

/-! ## Concrete example waterworks

Tiny graphs used to evaluate the drivers at explicit inputs.  `idTank` is a
one-slot/one-tube tank whose pour and pump are both the identity — a valid
reversible tank of the spec's contract (`pump(pour(x)) = x` holds for it
pointwise). -/

/-- A reversible one-slot (`i`), one-tube (`o`) tank computing the identity. -/
def idTank (nm : String) : Tank :=
  { name := nm
    slotKeys := ["i"]
    tubeKeys := ["o"]
    pourFn := fun sv _ => sv "i"
    pumpFn := fun tv _ => tv "o" }

/-- Three tanks `a`, `b`, `c`; the tube of `a` feeds the slot of `c`
(`c` pour-depends on `a`), `b` is unrelated.  Funnels: the slots of `a` and
`b`; taps: the tubes of `b` and `c`. -/
def w3 : Waterwork :=
  { name := ""
    tanksD := [("a", idTank "a"), ("b", idTank "b"), ("c", idTank "c")]
    slotsD := [("a/slots/i", ("a", "i")), ("b/slots/i", ("b", "i")),
               ("c/slots/i", ("c", "i"))]
    tubesD := [("(a,o)", ("a", "o")), ("(b,o)", ("b", "o")), ("(c,o)", ("c", "o"))]
    funnelsD := [("a/slots/i", ("a", "i")), ("b/slots/i", ("b", "i"))]
    tapsD := [("(b,o)", ("b", "o")), ("(c,o)", ("c", "o"))]
    placeholdersD := []
    slotUp := fun s => if s = ("c", "i") then some (.tube ("a", "o")) else none
    tubeDown := fun t => if t = ("a", "o") then some ("c", "i") else none
    phSlotOf := fun _ => none }

/-- A funnel assignment for `w3` providing a value for every funnel. -/
def d3 : List (InKey × Option Int) :=
  [(.name "a/slots/i", some 1), (.name "b/slots/i", some 2)]

/-- Two tanks `a`, `b`; the tube of `a` feeds the slot of `b`.  The single
funnel is the slot of `a` and the single tap the tube of `b`.  The name order
agrees with the dependency order, so the executed tank order is valid here. -/
def w2 : Waterwork :=
  { name := ""
    tanksD := [("a", idTank "a"), ("b", idTank "b")]
    slotsD := [("a/slots/i", ("a", "i")), ("b/slots/i", ("b", "i"))]
    tubesD := [("(a,o)", ("a", "o")), ("(b,o)", ("b", "o"))]
    funnelsD := [("a/slots/i", ("a", "i"))]
    tapsD := [("(b,o)", ("b", "o"))]
    placeholdersD := []
    slotUp := fun s => if s = ("b", "i") then some (.tube ("a", "o")) else none
    tubeDown := fun t => if t = ("a", "o") then some ("b", "i") else none
    phSlotOf := fun _ => none }

/-- A single free-standing reversible tank `t`: its slot is the only funnel,
its tube the only tap. -/
def w1 : Waterwork :=
  { name := ""
    tanksD := [("t", idTank "t")]
    slotsD := [("t/slots/i", ("t", "i"))]
    tubesD := [("(t,o)", ("t", "o"))]
    funnelsD := [("t/slots/i", ("t", "i"))]
    tapsD := [("(t,o)", ("t", "o"))]
    placeholdersD := []
    slotUp := fun _ => none
    tubeDown := fun _ => none
    phSlotOf := fun _ => none }

/-- The funnel assignment feeding `w1`'s single funnel. -/
def d1 : List (InKey × Option Int) := [(.name "t/slots/i", some 7)]

/-! ## Composition: `Waterwork.merge` -/

/-- `os.path.join` on the name components arising here (no absolute paths). -/
def pathJoin (a b : String) : String := if a = "" then b else a ++ "/" ++ b

/-- Python's `str((tank_name, key))` rendering used for the transferred part
names (the exact glyphs are irrelevant to the claims; only injectivity in the
two components matters). -/
def strTuple (t k : String) : String := "(" ++ t ++ "," ++ k ++ ")"

/-- `del d[k]` on a name-keyed dictionary: removing an absent key raises
`KeyError`. -/
def dictDel (l : List (String × Id2)) (k : String) : Except Err (List (String × Id2)) :=
  if (l.lookup k).isSome then .ok (l.filter fun e => e.1 ≠ k) else .error .keyError

/-- One entry of merge's `join_dict`: the key is a slot object of `other`
(its current full name and its `(tank, key)` address), the value a tube of
`self` or a Placeholder. -/
structure JoinEntry where
  slotName : String
  slotId : Id2
  tubeName : String
  tubeId : Id2
  tubeIsPh : Bool

/-- The mutable data merge's join loop works on: `self.taps`,
`other.funnels`, and the link attributes shared by all parts. -/
structure MergeAcc where
  selfTaps : List (String × Id2)
  otherFunnels : List (String × Id2)
  slotUp : Id2 → Option UpLink
  tubeDown : Id2 → Option Id2
  phSlotOf : String → Option Id2

/-- Merge's join loop: for each `slot ↦ tube` pair set `slot.tube = tube` and
`tube.slot = slot`, delete the tube from `self.taps` and — unless the tube is
a Placeholder — the slot from `other.funnels`. -/
def mergeJoin (acc : MergeAcc) : List JoinEntry → Except Err MergeAcc
  | [] => .ok acc
  | j :: rest =>
    let slotUp1 : Id2 → Option UpLink := fun s =>
      if s = j.slotId then
        some (if j.tubeIsPh then UpLink.ph j.tubeName else UpLink.tube j.tubeId)
      else acc.slotUp s
    let tubeDown1 : Id2 → Option Id2 :=
      if j.tubeIsPh then acc.tubeDown
      else fun t => if t = j.tubeId then some j.slotId else acc.tubeDown t
    let phSlotOf1 : String → Option Id2 :=
      if j.tubeIsPh then fun p => if p = j.tubeName then some j.slotId else acc.phSlotOf p
      else acc.phSlotOf
    match dictDel acc.selfTaps j.tubeName with
    | .error e => .error e
    | .ok selfTaps1 =>
      match (if j.tubeIsPh then .ok acc.otherFunnels
             else dictDel acc.otherFunnels j.slotName) with
      | .error e => .error e
      | .ok otherFunnels1 =>
        mergeJoin
          { selfTaps := selfTaps1, otherFunnels := otherFunnels1,
            slotUp := slotUp1, tubeDown := tubeDown1, phSlotOf := phSlotOf1 }
          rest

/-- The new dictionary key of a transferred slot/tube/funnel/tap:
`str((os.path.join(ww.name, v.tank.name), v.key))`. -/
def renameEntry (nm : String) (e : String × Id2) : String × Id2 :=
  (strTuple (pathJoin nm e.2.1) e.2.2, e.2)

/-- The link functions seen by both operands before the join loop runs: the
parts are disjoint, so resolution tries `self` first. -/
def mergeAcc0 (self other : Waterwork) : MergeAcc :=
  { selfTaps := self.tapsD
    otherFunnels := other.funnelsD
    slotUp := fun s => match self.slotUp s with
      | some u => some u
      | none => other.slotUp s
    tubeDown := fun t => match self.tubeDown t with
      | some s => some s
      | none => other.tubeDown t
    phSlotOf := fun p => match self.phSlotOf p with
      | some s => some s
      | none => other.phSlotOf p }

/-- `Waterwork.merge(other, join_dict, name)`: after rejecting equal operand
names, run the join loop, transfer the `funnels`, `taps`, `slots`, `tubes`
and `tanks` dictionaries of both operands into a fresh waterwork under their
new names, and clear those five dictionaries of both operands.  The
`placeholders` dictionaries appear in neither the transfer list nor the
clearing loop of the source, so they are left untouched.  (The source's final
renaming pass only rewrites the `.name`/`.waterwork` attributes of the part
objects to the names the transfer already used as keys, which adds nothing to
this model.)  Returns the merged waterwork together with the mutated
operands. -/
def merge (self other : Waterwork) (joinDict : List JoinEntry) (nm : String) :
    Except Err (Waterwork × Waterwork × Waterwork) :=
  if self.name = other.name then .error .sameName
  else
    match mergeJoin (mergeAcc0 self other) joinDict with
    | .error e => .error e
    | .ok acc =>
      let ww : Waterwork :=
        { name := nm
          tanksD := self.tanksD.map (fun e => (pathJoin nm e.1, e.2))
            ++ other.tanksD.map (fun e => (pathJoin nm e.1, e.2))
          slotsD := self.slotsD.map (renameEntry nm) ++ other.slotsD.map (renameEntry nm)
          tubesD := self.tubesD.map (renameEntry nm) ++ other.tubesD.map (renameEntry nm)
          funnelsD := self.funnelsD.map (renameEntry nm)
            ++ acc.otherFunnels.map (renameEntry nm)
          tapsD := acc.selfTaps.map (renameEntry nm) ++ other.tapsD.map (renameEntry nm)
          placeholdersD := []
          slotUp := acc.slotUp
          tubeDown := acc.tubeDown
          phSlotOf := acc.phSlotOf }
      let selfA : Waterwork :=
        { self with tanksD := [], slotsD := [], tubesD := [], funnelsD := [],
                    tapsD := [], slotUp := acc.slotUp, tubeDown := acc.tubeDown,
                    phSlotOf := acc.phSlotOf }
      let otherA : Waterwork :=
        { other with tanksD := [], slotsD := [], tubesD := [], funnelsD := [],
                     tapsD := [], slotUp := acc.slotUp, tubeDown := acc.tubeDown,
                     phSlotOf := acc.phSlotOf }
      .ok (ww, selfA, otherA)

/-! ## Composition: `Waterwork.combine` -/

/-- The argument combine builds for one slot of a reconstructed tank: a fresh
Placeholder carrying over the old placeholder's value, or a reference (by new
name) to an already reconstructed tube of the waterwork under construction. -/
inductive CombInput where
  | freshPh (val : Option Int)
  | tubeRef (name : String)
deriving DecidableEq, Repr

/-- A reconstructed tank: its new name, the constructor argument per slot
key, and the slot/tube values copied over by the `set_val` loops. -/
structure CombTank where
  name : String
  inputs : List (String × CombInput)
  slotVals : List (String × Option Int)
  tubeVals : List (String × Option Int)
deriving DecidableEq, Repr

/-- The state of combine's reconstruction: tube names registered so far in
the new waterwork's `tubes` dictionary (modelled from the spec: a
constructed tank registers its tubes under their default names, which §6 of
the spec renders as the `(tank_name, key)` pair) and the tanks built so
far. -/
structure CombAcc where
  tubeNames : List String
  newTanks : List CombTank
deriving DecidableEq, Repr

/-- Build combine's `input_dict` entry for one slot of a tank of `self`:
a Placeholder-fed slot yields a fresh Placeholder; a tube-fed slot is looked
up in `ww.tubes` under `str((os.path.join(name, slot.tube.tank.name),
slot.tube.key))` (`KeyError` if absent); a free slot has `slot.tube = None`,
on which the source's `slot.tube.tank` access raises `AttributeError`. -/
def combInputSelf (ww : Waterwork) (st : VState) (acc : CombAcc) (nm : String)
    (tank : Tank) (sk : String) : Except Err CombInput :=
  match ww.slotUp (tank.name, sk) with
  | some (.ph p) => .ok (.freshPh (st.phVal p))
  | some (.tube (tn, tk)) =>
    let newName := strTuple (pathJoin nm tn) tk
    if newName ∈ acc.tubeNames then .ok (.tubeRef newName) else .error .keyError
  | none => .error .attributeError

/-- Build combine's `input_dict` entry for one slot of a tank of `other`:
a slot appearing in `join_dict` resolves to the reconstructed copy of the
joined tube of `self`; otherwise as for `self`'s tanks. -/
def combInputOther (ww : Waterwork) (st : VState) (acc : CombAcc) (nm : String)
    (joinDict : List (Id2 × Id2)) (tank : Tank) (sk : String) :
    Except Err CombInput :=
  match joinDict.lookup (tank.name, sk) with
  | some (tn, tk) =>
    let newName := strTuple (pathJoin nm tn) tk
    if newName ∈ acc.tubeNames then .ok (.tubeRef newName) else .error .keyError
  | none => combInputSelf ww st acc nm tank sk

/-- Reconstruct one tank: build its `input_dict` slot by slot, construct the
copy under `os.path.join(name, tank.name)` (registering its tubes), and copy
every slot and tube value. -/
def combAddTank (st : VState) (nm : String)
    (inputOf : CombAcc → Tank → String → Except Err CombInput)
    (acc : CombAcc) (tank : Tank) : Except Err CombAcc :=
  match tank.slotKeys.foldlM
      (fun l sk =>
        match inputOf acc tank sk with
        | .ok ci => (Except.ok (l ++ [(sk, ci)]) : Except Err (List (String × CombInput)))
        | .error e => Except.error e)
      ([] : List (String × CombInput)) with
  | .error e => .error e
  | .ok inputs =>
    let newName := pathJoin nm tank.name
    let ct : CombTank :=
      { name := newName
        inputs := inputs
        slotVals := tank.slotKeys.map fun sk => (sk, st.slotVal (tank.name, sk))
        tubeVals := tank.tubeKeys.map fun tk => (tk, st.tubeVal (tank.name, tk)) }
    .ok { tubeNames := acc.tubeNames ++ tank.tubeKeys.map (strTuple newName)
          newTanks := acc.newTanks ++ [ct] }

/-- `Waterwork.combine(other, join_dict, name)`: after rejecting equal
operand names, reconstruct every tank of `self` in
`self._pour_tank_order()`, then every tank of `other` in
`other._pour_tank_order()` with the `join_dict` overrides.  Neither operand
is modified.  The result records the reconstructed tanks, their wiring and
their copied values. -/
def combine (self other : Waterwork) (stSelf stOther : VState)
    (joinDict : List (Id2 × Id2)) (nm : String) : Except Err CombAcc :=
  if self.name = other.name then .error .sameName
  else
  match (pourTankOrder self).foldlM
      (combAddTank stSelf nm (fun a t sk => combInputSelf self stSelf a nm t sk))
      { tubeNames := [], newTanks := [] } with
  | .error e => .error e
  | .ok acc1 =>
    (pourTankOrder other).foldlM
      (combAddTank stOther nm (fun a t sk => combInputOther other stOther a nm joinDict t sk))
      acc1

/-! ## `DateTimeTransform.calc_global_values`

The fitting dataset is a rectangular 2-D numpy datetime array, modelled as a
list of rows of exact rationals (each entry the time elapsed since the epoch
in the array's unit); `NaT`-free datasets, which is the regime the degenerate
statistics claims are about, convert exactly.  A numpy value that is either a
scalar (`np.float64`, produced by `axis=None` reductions) or a 1-D array
(produced by `axis=0` reductions) is `NpVal`; the scalar/array distinction
drives the behaviour of the item assignment `self.std[self.std == 0] = 1.0`
and of the truth test `if self.min == self.max`. -/

/-- A numpy reduction result: a scalar (`axis=None`) or a 1-D array
(`axis=0`). -/
inductive NpVal where
  | scalar (q : ℚ)
  | arr (qs : List ℚ)
deriving DecidableEq, Repr

/-- Mean of a list of rationals (only evaluated on nonempty lists here). -/
def qMean (xs : List ℚ) : ℚ := xs.sum / xs.length

/-- Population variance of a list of rationals. -/
def qVar (xs : List ℚ) : ℚ := qMean (xs.map fun x => (x - qMean xs) ^ 2)

/-- All entries of a rectangular 2-D array (row-major). -/
def flatten (d : List (List ℚ)) : List ℚ := d.foldr (· ++ ·) []

/-- The columns of a rectangular 2-D array. -/
def colsOf (d : List (List ℚ)) : List (List ℚ) :=
  match d with
  | [] => []
  | r0 :: _ => (List.range r0.length).map fun i => d.filterMap fun row => row[i]?

/-- `np.nanmean(a, axis)` on a NaN-free array: a scalar over the flattened
array for `axis=None`, the array of column means for `axis=0`. -/
def nanmean (axis : Option Nat) (d : List (List ℚ)) : NpVal :=
  match axis with
  | none => .scalar (qMean (flatten d))
  | some _ => .arr ((colsOf d).map qMean)

/-- `np.nanstd(a, axis)` modelled by its square, the variance: the model
value is zero exactly where the true standard deviation is zero (which is all
the degenerate-statistics claims depend on), and the patch value `1.0` is a
fixed point of squaring. -/
def nanstdSq (axis : Option Nat) (d : List (List ℚ)) : NpVal :=
  match axis with
  | none => .scalar (qVar (flatten d))
  | some _ => .arr ((colsOf d).map qVar)

/-- Minimum of a nonempty list of rationals. -/
def qMin (xs : List ℚ) : ℚ := xs.foldr min (xs.headD 0)

/-- Maximum of a nonempty list of rationals. -/
def qMax (xs : List ℚ) : ℚ := xs.foldr max (xs.headD 0)

/-- `np.nanmin(a, axis)` on a NaN-free array. -/
def nanmin (axis : Option Nat) (d : List (List ℚ)) : NpVal :=
  match axis with
  | none => .scalar (qMin (flatten d))
  | some _ => .arr ((colsOf d).map qMin)

/-- `np.nanmax(a, axis)` on a NaN-free array. -/
def nanmax (axis : Option Nat) (d : List (List ℚ)) : NpVal :=
  match axis with
  | none => .scalar (qMax (flatten d))
  | some _ => .arr ((colsOf d).map qMax)

/-- `(x == 0).any()`. -/
def anyZero : NpVal → Bool
  | .scalar q => q = 0
  | .arr qs => qs.any (· = 0)

/-- The item assignment `x[x == 0] = 1.0`: elementwise replacement on an
array; a numpy scalar (`np.float64`) does not support item assignment and
raises `TypeError`. -/
def patchZerosToOne : NpVal → Except Err NpVal
  | .scalar _ => .error .typeError
  | .arr qs => .ok (.arr (qs.map fun q => if q = 0 then 1 else q))

/-- The truth value of `if x == y:` on two same-shaped numpy values: scalars
compare directly; the elementwise comparison of arrays is truth-testable only
when it has at most one element, otherwise numpy raises the ambiguous-truth
`ValueError`. -/
def eqTruth : NpVal → NpVal → Except Err Bool
  | .scalar a, .scalar b => .ok (a = b)
  | .arr a, .arr b =>
    match a, b with
    | [], [] => .ok false
    | [x], [y] => .ok (x = y)
    | _, _ => .error .ambiguousTruth
  | _, _ => .error .ambiguousTruth

/-- `x + 1` (scalar add with broadcasting). -/
def addOne : NpVal → NpVal
  | .scalar q => .scalar (q + 1)
  | .arr qs => .arr (qs.map (· + 1))

/-- The `norm_mode` attribute (validated by `_setattributes` to be one of
`None`, `'mean_std'`, `'min_max'`). -/
inductive NormMode where
  | noMode
  | meanStd
  | minMax
deriving DecidableEq, Repr

/-- The configuration attributes of a `DateTimeTransform` that
`calc_global_values` reads: `norm_mode`, `norm_axis` (`None` or an axis),
and the datetime-to-number parameters `zero_datetime` and the timedelta
divisor `np.timedelta64(num_units, time_unit)`, both as exact rationals in
the dataset's unit. -/
structure DTConfig where
  normMode : NormMode
  normAxis : Option Nat
  zeroDatetime : ℚ
  unitsDiv : ℚ

/-- The statistics attributes `calc_global_values` writes: `input_dtype`
(here just the fact that it was set), `mean`, `std` (modelled squared), `min`,
`max`, plus whether a degenerate-statistics warning was emitted. -/
structure DTState where
  inputDtypeSet : Bool
  mean : Option NpVal
  stdSq : Option NpVal
  minV : Option NpVal
  maxV : Option NpVal
  warned : Bool
deriving DecidableEq, Repr

/-- `(array - self.zero_datetime) / np.timedelta64(self.num_units,
self.time_unit)`, cast to float (exact here). -/
def tempOf (cfg : DTConfig) (d : List (List ℚ)) : List (List ℚ) :=
  d.map (·.map fun x => (x - cfg.zeroDatetime) / cfg.unitsDiv)

/-- `DateTimeTransform.calc_global_values(array)`: record the input dtype;
under `mean_std` compute `nanmean`/`nanstd` (after raising on a length-zero
array), warn and patch zero standard deviations via the item assignment;
under `min_max` compute `nanmin`/`nanmax` (same length check), and if `min ==
max` replace `max` by `max + 1` with a warning; under `norm_mode = None`
compute nothing.  `len(temp_array)` is the number of rows of the 2-D
array. -/
def calcGlobalValues (cfg : DTConfig) (data : List (List ℚ)) : Except Err DTState :=
  let st0 : DTState :=
    { inputDtypeSet := true, mean := none, stdSq := none,
      minV := none, maxV := none, warned := false }
  match cfg.normMode with
  | .noMode => .ok st0
  | .meanStd =>
    let temp := tempOf cfg data
    if temp.length = 0 then .error .emptyFit
    else
      let m := nanmean cfg.normAxis temp
      let s := nanstdSq cfg.normAxis temp
      if anyZero s then
        match patchZerosToOne s with
        | .ok s1 => .ok { st0 with mean := some m, stdSq := some s1, warned := true }
        | .error e => .error e
      else .ok { st0 with mean := some m, stdSq := some s }
  | .minMax =>
    let temp := tempOf cfg data
    if temp.length = 0 then .error .emptyFit
    else
      let mn := nanmin cfg.normAxis temp
      let mx := nanmax cfg.normAxis temp
      match eqTruth mn mx with
      | .error e => .error e
      | .ok true => .ok { st0 with minV := some mn, maxV := some (addOne mx), warned := true }
      | .ok false => .ok { st0 with minV := some mn, maxV := some mx }

/-! ## Further concrete examples for the composition and transform claims -/

/-- Waterwork `A`: one reversible tank `t` whose slot is fed by placeholder
`p` (a placeholder-fed slot remains a funnel). -/
def mA : Waterwork :=
  { name := "A"
    tanksD := [("t", idTank "t")]
    slotsD := [("t/slots/i", ("t", "i"))]
    tubesD := [("(t,o)", ("t", "o"))]
    funnelsD := [("t/slots/i", ("t", "i"))]
    tapsD := [("(t,o)", ("t", "o"))]
    placeholdersD := [("p", "p")]
    slotUp := fun s => if s = ("t", "i") then some (.ph "p") else none
    tubeDown := fun _ => none
    phSlotOf := fun p => if p = "p" then some ("t", "i") else none }

/-- Waterwork `B`: one reversible tank `u` with a free slot. -/
def mB : Waterwork :=
  { name := "B"
    tanksD := [("u", idTank "u")]
    slotsD := [("u/slots/i", ("u", "i"))]
    tubesD := [("(u,o)", ("u", "o"))]
    funnelsD := [("u/slots/i", ("u", "i"))]
    tapsD := [("(u,o)", ("u", "o"))]
    placeholdersD := []
    slotUp := fun _ => none
    tubeDown := fun _ => none
    phSlotOf := fun _ => none }

/-- Waterwork `C`: like `B` but the slot of its tank `u` is fed by
placeholder `q`, so every slot is placeholder-fed. -/
def mC : Waterwork :=
  { name := "C"
    tanksD := [("u", idTank "u")]
    slotsD := [("u/slots/i", ("u", "i"))]
    tubesD := [("(u,o)", ("u", "o"))]
    funnelsD := [("u/slots/i", ("u", "i"))]
    tapsD := [("(u,o)", ("u", "o"))]
    placeholdersD := [("q", "q")]
    slotUp := fun s => if s = ("u", "i") then some (.ph "q") else none
    tubeDown := fun _ => none
    phSlotOf := fun p => if p = "q" then some ("u", "i") else none }

/-! ## Helper lemmas about the drivers -/

/-- With one of the three accepted pour key modes, the result-collection fold
never raises. -/
theorem foldPourR_ok (st : VState) (kt : String)
    (h : kt = "obj" ∨ kt = "tuple" ∨ kt = "str") (taps : List (String × Id2)) :
    ∀ acc, ∃ r, List.foldlM (pourRStep st kt) acc taps = Except.ok r := by
  induction taps with
  | nil => intro acc; exact ⟨acc, rfl⟩
  | cons tap rest ih =>
    intro acc
    rcases h with h | h | h <;> subst h <;>
      simpa [List.foldlM, pourRStep] using ih _

/-- With a key mode outside the accepted three, the pour result-collection
fold raises *BadKeyMode* as soon as there is a tap to collect. -/
theorem foldPourR_err (st : VState) (kt : String)
    (h1 : kt ≠ "obj") (h2 : kt ≠ "tuple") (h3 : kt ≠ "str")
    (taps : List (String × Id2)) (hne : taps ≠ []) (acc : List (RKey × Option Int)) :
    List.foldlM (pourRStep st kt) acc taps = Except.error Err.badKeyType := by
  cases taps with
  | nil => exact absurd rfl hne
  | cons tap rest =>
    simp only [List.foldlM, pourRStep, if_neg h1, if_neg h2, if_neg h3]
    rfl

/-- With one of the three accepted pump key modes, the result-collection fold
never raises. -/
theorem foldPumpR_ok (st : VState) (kt : String)
    (h : kt = "slot" ∨ kt = "tuple" ∨ kt = "str") (fs : List (String × Id2)) :
    ∀ acc, ∃ r, List.foldlM (pumpRStep st kt) acc fs = Except.ok r := by
  induction fs with
  | nil => intro acc; exact ⟨acc, rfl⟩
  | cons f rest ih =>
    intro acc
    rcases h with h | h | h <;> subst h <;>
      simpa [List.foldlM, pumpRStep] using ih _

/-- With a key mode outside the accepted three, the pump result-collection
fold raises *BadKeyMode* as soon as there is a funnel to collect. -/
theorem foldPumpR_err (st : VState) (kt : String)
    (h1 : kt ≠ "slot") (h2 : kt ≠ "tuple") (h3 : kt ≠ "str")
    (fs : List (String × Id2)) (hne : fs ≠ []) (acc : List (RKey × Option Int)) :
    List.foldlM (pumpRStep st kt) acc fs = Except.error Err.badKeyType := by
  cases fs with
  | nil => exact absurd rfl hne
  | cons f rest =>
    simp only [List.foldlM, pumpRStep, if_neg h1, if_neg h2, if_neg h3]
    rfl

/-- When binding, funnel check and tank execution all succeed, `pour` amounts
to the result-collection step on the post-execution state (for every key
mode: the earlier phases do not read `key_type`). -/
theorem pour_of_phases (ww : Waterwork) (st st1 st2 : VState)
    (xs : List (InKey × Option Int)) (kt : String)
    (hb : bindPour ww st xs = (st1, Except.ok ()))
    (hc : funnelCheck ww st1 = Except.ok ())
    (hr : runTanksPour ww st1 (pourTankOrder ww) = (st2, Except.ok ())) :
    pour ww st xs kt = (st2, buildPourR ww st2 kt) := by
  unfold pour
  rw [hb]
  dsimp only
  rw [hc]
  dsimp only
  rw [hr]
  dsimp only
  cases hbr : buildPourR ww st2 kt <;> rfl

/-- Conversely, a successful `pour` means every phase succeeded. -/
theorem pour_ok_phases (ww : Waterwork) (st : VState)
    (xs : List (InKey × Option Int)) (kt : String) (r : List (RKey × Option Int))
    (h : (pour ww st xs kt).2 = Except.ok r) :
    ∃ st1 st2, bindPour ww st xs = (st1, Except.ok ()) ∧
      funnelCheck ww st1 = Except.ok () ∧
      runTanksPour ww st1 (pourTankOrder ww) = (st2, Except.ok ()) := by
  unfold pour at h
  rcases hb : bindPour ww st xs with ⟨st1, e1⟩
  rw [hb] at h
  cases e1 with
  | error e => dsimp only at h; simp at h
  | ok u =>
    cases u
    dsimp only at h
    rcases hc : funnelCheck ww st1 with e | u
    · rw [hc] at h; simp at h
    · cases u
      rw [hc] at h
      dsimp only at h
      rcases hr : runTanksPour ww st1 (pourTankOrder ww) with ⟨st2, e2⟩
      rw [hr] at h
      cases e2 with
      | error e => dsimp only at h; simp at h
      | ok u => cases u; exact ⟨st1, st2, rfl, hc, hr⟩

/-- When binding, tap check and tank execution all succeed, `pump` amounts to
the result-collection step on the post-execution state. -/
theorem pump_of_phases (ww : Waterwork) (st st1 st2 : VState)
    (xs : List (InKey × Option Int)) (kt : String)
    (hb : bindPump ww st xs = (st1, Except.ok ()))
    (hc : tapCheck ww st1 = Except.ok ())
    (hr : runTanksPump ww st1 (pumpTankOrder ww) = (st2, Except.ok ())) :
    pump ww st xs kt = (st2, buildPumpR ww st2 kt) := by
  unfold pump
  rw [hb]
  dsimp only
  rw [hc]
  dsimp only
  rw [hr]
  dsimp only
  cases hbr : buildPumpR ww st2 kt <;> rfl

/-- Conversely, a successful `pump` means every phase succeeded. -/
theorem pump_ok_phases (ww : Waterwork) (st : VState)
    (xs : List (InKey × Option Int)) (kt : String) (r : List (RKey × Option Int))
    (h : (pump ww st xs kt).2 = Except.ok r) :
    ∃ st1 st2, bindPump ww st xs = (st1, Except.ok ()) ∧
      tapCheck ww st1 = Except.ok () ∧
      runTanksPump ww st1 (pumpTankOrder ww) = (st2, Except.ok ()) := by
  unfold pump at h
  rcases hb : bindPump ww st xs with ⟨st1, e1⟩
  rw [hb] at h
  cases e1 with
  | error e => dsimp only at h; simp at h
  | ok u =>
    cases u
    dsimp only at h
    rcases hc : tapCheck ww st1 with e | u
    · rw [hc] at h; simp at h
    · cases u
      rw [hc] at h
      dsimp only at h
      rcases hr : runTanksPump ww st1 (pumpTankOrder ww) with ⟨st2, e2⟩
      rw [hr] at h
      cases e2 with
      | error e => dsimp only at h; simp at h
      | ok u => cases u; exact ⟨st1, st2, rfl, hc, hr⟩

/-- If pour's binding loop raises, `pour` returns that exception with the
state the loop had already built. -/
theorem pour_of_bind_error (ww : Waterwork) (st stE : VState)
    (xs : List (InKey × Option Int)) (kt : String) (er : Err)
    (hb : bindPour ww st xs = (stE, Except.error er)) :
    pour ww st xs kt = (stE, Except.error er) := by
  unfold pour
  rw [hb]

/-- If binding succeeds and the funnel check raises, `pour` returns
*MissingInput* with the post-binding state — no tank has executed. -/
theorem pour_of_check_error (ww : Waterwork) (st st1 : VState)
    (xs : List (InKey × Option Int)) (kt : String)
    (hb : bindPour ww st xs = (st1, Except.ok ()))
    (hc : funnelCheck ww st1 ≠ Except.ok ()) :
    pour ww st xs kt = (st1, Except.error Err.missingInput) := by
  unfold pour
  rw [hb]
  dsimp only
  unfold funnelCheck at hc ⊢
  rcases hf : ww.funnelsD.find? (fun f => (st1.slotVal f.2).isNone) with _ | f
  · rw [hf] at hc; simp at hc
  · rw [hf]

/-! ## Claim theorems -/

/-- **C2** (code bug).  The tank sequence executed by pour is *not* a valid
topological order of the pour-dependency graph: on the three-tank waterwork
`w3` — tanks named `a`, `b`, `c` where `c` pour-depends on `a` — the source's
`sorted(tanks, cmp=lambda a, b: 1 if b in a.get_pour_dependencies() else -1)`
returns `[c, b, a]`, placing `c` before its dependency `a`, although the
valid order `[a, b, c]` exists.  (The name-sorted list `[a, b, c]` looks
strictly descending to the inconsistent comparator, so timsort reverses it
wholesale without ever comparing `c` with `a`.) -/
theorem c2_pour_order_not_topological :
    (pourTankOrder w3).map Tank.name = ["c", "b", "a"] ∧
    pourDepNames w3 (idTank "c") = ["a"] ∧
    topoOkB w3 (pourTankOrder w3) = false ∧
    topoOkB w3 [idTank "a", idTank "b", idTank "c"] = true := by
  refine ⟨by decide, by decide, by decide, by decide⟩

/-- **C1** (code bug).  `pump(pour(x)) = x` fails on the waterwork `w3` even
though its funnel assignment `d3` covers every funnel (first conjunct: the
funnel check passes after binding): because `_pour_tank_order` runs tank `c`
before its dependency `a` (see `c2_pour_order_not_topological`), `c` is
invoked while its slot still holds `None`, and the round trip raises instead
of returning `x`. -/
theorem c1_roundtrip_fails :
    funnelCheck w3 (bindPour w3 VState.empty d3).1 = Except.ok () ∧
    pumpAfterPour w3 VState.empty d3 = Except.error Err.tankRunError := ⟨rfl, rfl⟩

/-- **C3** (code bug).  `combine` crashes with `AttributeError` whenever an
operand has a free slot (one built with the documented `None` argument):
for such a slot `slot.tube` is `None` and the source evaluates
`slot.tube.tank`.  Waterwork `mB` consists of a single tank with a free slot;
combining it with `mC` raises, while combining the placeholder-fed `mA` with
`mC` succeeds. -/
theorem c3_combine_crashes_on_free_slot :
    combine mB mC VState.empty VState.empty [] "m" = Except.error Err.attributeError ∧
    (combine mA mC VState.empty VState.empty [] "m").toOption.isSome = true :=
  ⟨rfl, rfl⟩

/-- **C4** (confirmed).  `pour` is deterministic: two runs on the same
Waterwork from equal value states with equal funnel dictionaries (same
mapping, same dictionary iteration order) and the same key mode produce equal
results — the driver is a pure function of those inputs; it consults no
clock, randomness or external state. -/
theorem c4_pour_deterministic (ww : Waterwork) (st st' : VState)
    (xs ys : List (InKey × Option Int)) (kt : String)
    (hst : st = st') (hxs : xs = ys) :
    pour ww st xs kt = pour ww st' ys kt := by
  rw [hst, hxs]

/-- Witness for `c4_pour_deterministic` at the concrete waterwork `w1`. -/
theorem c4_pour_deterministic_witness :
    pour w1 VState.empty d1 "str" = pour w1 VState.empty d1 "str" :=
  c4_pour_deterministic w1 VState.empty VState.empty d1 d1 "str" rfl rfl

/-- **C5** (counterexample).  The claim says pump accepts the key mode `obj`;
it does not: on `w1`, with its tap bound, `pump` with `key_type='obj'` raises
the *BadKeyMode* `ValueError`, while the undocumented mode `'slot'` is the
one that returns the funnel objects. -/
theorem c5_pump_rejects_obj_mode :
    (pump w1 VState.empty [(.name "(t,o)", some 3)] "obj").2 = Except.error Err.badKeyType ∧
    (pump w1 VState.empty [(.name "(t,o)", some 3)] "slot").2 =
      Except.ok [(RKey.obj ("t", "i"), some 3)] := ⟨rfl, rfl⟩

/-- **C5** (amended).  `pour` accepts exactly the key modes
`{obj, tuple, str}` and `pump` exactly `{slot, tuple, str}`: whenever the
earlier phases succeed (witnessed by a successful run with mode `str`), any
of the accepted modes returns a result dictionary, and any mode outside the
respective set raises *BadKeyMode* as soon as there is a tap (for pour) or
funnel (for pump) to collect. -/
theorem c5_key_mode_sets (ww : Waterwork) (st : VState)
    (xs ys : List (InKey × Option Int)) (kt : String)
    (rp rq : List (RKey × Option Int))
    (hpour : (pour ww st xs "str").2 = Except.ok rp)
    (hpump : (pump ww st ys "str").2 = Except.ok rq) :
    ((kt = "obj" ∨ kt = "tuple" ∨ kt = "str") →
      ∃ r, (pour ww st xs kt).2 = Except.ok r) ∧
    (kt ≠ "obj" → kt ≠ "tuple" → kt ≠ "str" → ww.tapsD ≠ [] →
      (pour ww st xs kt).2 = Except.error Err.badKeyType) ∧
    ((kt = "slot" ∨ kt = "tuple" ∨ kt = "str") →
      ∃ r, (pump ww st ys kt).2 = Except.ok r) ∧
    (kt ≠ "slot" → kt ≠ "tuple" → kt ≠ "str" → ww.funnelsD ≠ [] →
      (pump ww st ys kt).2 = Except.error Err.badKeyType) := by
  obtain ⟨st1, st2, hb, hc, hr⟩ := pour_ok_phases ww st xs "str" rp hpour
  obtain ⟨su1, su2, hb2, hc2, hr2⟩ := pump_ok_phases ww st ys "str" rq hpump
  have hp := fun kt => pour_of_phases ww st st1 st2 xs kt hb hc hr
  have hq := fun kt => pump_of_phases ww st su1 su2 ys kt hb2 hc2 hr2
  refine ⟨?_, ?_, ?_, ?_⟩
  · intro hm
    obtain ⟨r, hrr⟩ := foldPourR_ok st2 kt hm ww.tapsD []
    exact ⟨r, by rw [hp kt]; exact hrr⟩
  · intro h1 h2 h3 htap
    rw [hp kt]
    exact foldPourR_err st2 kt h1 h2 h3 ww.tapsD htap []
  · intro hm
    obtain ⟨r, hrr⟩ := foldPumpR_ok su2 kt hm ww.funnelsD []
    exact ⟨r, by rw [hq kt]; exact hrr⟩
  · intro h1 h2 h3 hfun
    rw [hq kt]
    exact foldPumpR_err su2 kt h1 h2 h3 ww.funnelsD hfun []

/-- Witness for `c5_key_mode_sets` on `w1`: pour raises *BadKeyMode* on the
bogus mode `name`, pump raises it on the claimed-but-rejected mode `obj`. -/
theorem c5_key_mode_sets_witness :
    (pour w1 VState.empty d1 "name").2 = Except.error Err.badKeyType ∧
    (pump w1 VState.empty [(.name "(t,o)", some 3)] "obj").2 =
      Except.error Err.badKeyType := by
  have h := c5_key_mode_sets w1 VState.empty d1 [(.name "(t,o)", some 3)] "name"
    [(RKey.str "(t,o)", some 7)] [(RKey.str "t/slots/i", some 3)] rfl rfl
  have h' := c5_key_mode_sets w1 VState.empty d1 [(.name "(t,o)", some 3)] "obj"
    [(RKey.str "(t,o)", some 7)] [(RKey.str "t/slots/i", some 3)] rfl rfl
  exact ⟨h.2.1 (by decide) (by decide) (by decide) (by decide),
    h'.2.2.2 (by decide) (by decide) (by decide) (by decide)⟩

/-- **C10** (confirmed).  Pour's `key_type` parameter defaults to `'tube'`,
which is outside the accepted set `{obj, tuple, str}`.  On any waterwork with
at least one tap whose pour would otherwise succeed, calling pour without an
explicit key mode raises *BadKeyMode*, and only after every tank has run: the
value state it leaves behind equals the fully mutated state of the successful
`str`-mode run — pour is not atomic on this error. -/
theorem c10_default_key_mode_not_atomic (ww : Waterwork) (st : VState)
    (xs : List (InKey × Option Int)) (rp : List (RKey × Option Int))
    (hpour : (pour ww st xs "str").2 = Except.ok rp)
    (htap : ww.tapsD ≠ []) :
    (pourDefault ww st xs).2 = Except.error Err.badKeyType ∧
    (pourDefault ww st xs).1 = (pour ww st xs "str").1 := by
  obtain ⟨st1, st2, hb, hc, hr⟩ := pour_ok_phases ww st xs "str" rp hpour
  have h1 := pour_of_phases ww st st1 st2 xs "tube" hb hc hr
  have h2 := pour_of_phases ww st st1 st2 xs "str" hb hc hr
  constructor
  · unfold pourDefault
    rw [h1]
    exact foldPourR_err st2 "tube" (by decide) (by decide) (by decide) ww.tapsD htap []
  · unfold pourDefault
    rw [h1, h2]

/-- Witness for `c10_default_key_mode_not_atomic` on `w1`. -/
theorem c10_default_key_mode_witness :
    (pourDefault w1 VState.empty d1).2 = Except.error Err.badKeyType ∧
    (pourDefault w1 VState.empty d1).1 = (pour w1 VState.empty d1 "str").1 :=
  c10_default_key_mode_not_atomic w1 VState.empty d1 [(RKey.str "(t,o)", some 7)]
    rfl (by decide)

/-- **C6** (counterexample).  After `merge`, the sources are *not* left with
all six mappings empty: merging `mA` (which owns placeholder `p`) with `mB`
succeeds, but `mA`'s `placeholders` dictionary still contains `p` — the
source transfers and clears only `funnels`, `taps`, `slots`, `tubes` and
`tanks` — and the merged waterwork's `placeholders` dictionary is empty, so
the placeholder was not transferred either. -/
theorem c6_placeholders_survive_merge :
    (merge mA mB [] "m").toOption.map
      (fun t => (t.1.placeholdersD, t.2.1.placeholdersD)) =
      some ([], [("p", "p")]) := by decide

/-- **C6** (amended).  Whenever `merge(other, join_dict, name)` returns, the
`funnels`, `taps`, `slots`, `tubes` and `tanks` of both sources have been
transferred (under their new names) into the fresh merged waterwork and those
five mappings of both sources are empty; the `placeholders` mappings, by
contrast, are neither transferred nor cleared: each source keeps its
placeholder entries and the merged waterwork has none. -/
theorem c6_merge_transfers_and_empties (self other : Waterwork)
    (jd : List JoinEntry) (nm : String) (ww sA oA : Waterwork)
    (h : merge self other jd nm = Except.ok (ww, sA, oA)) :
    (sA.funnelsD = [] ∧ sA.tapsD = [] ∧ sA.slotsD = [] ∧ sA.tubesD = [] ∧
      sA.tanksD = []) ∧
    (oA.funnelsD = [] ∧ oA.tapsD = [] ∧ oA.slotsD = [] ∧ oA.tubesD = [] ∧
      oA.tanksD = []) ∧
    sA.placeholdersD = self.placeholdersD ∧
    oA.placeholdersD = other.placeholdersD ∧
    ww.placeholdersD = [] ∧
    ww.slotsD = self.slotsD.map (renameEntry nm) ++ other.slotsD.map (renameEntry nm) ∧
    ww.tubesD = self.tubesD.map (renameEntry nm) ++ other.tubesD.map (renameEntry nm) ∧
    ww.tanksD = self.tanksD.map (fun e => (pathJoin nm e.1, e.2))
      ++ other.tanksD.map (fun e => (pathJoin nm e.1, e.2)) := by
  unfold merge at h
  split at h
  · simp at h
  · rcases hj : mergeJoin (mergeAcc0 self other) jd with e | acc
    · rw [hj] at h; simp at h
    · rw [hj] at h
      dsimp only at h
      rw [Except.ok.injEq, Prod.mk.injEq, Prod.mk.injEq] at h
      obtain ⟨hww, hsA, hoA⟩ := h
      subst hww hsA hoA
      refine ⟨⟨rfl, rfl, rfl, rfl, rfl⟩, ⟨rfl, rfl, rfl, rfl, rfl⟩,
        rfl, rfl, rfl, rfl, rfl, rfl⟩

/-- Witness for `c6_merge_transfers_and_empties` at the concrete merge of
`mA` and `mB`. -/
theorem c6_merge_transfers_witness :
    (merge mA mB [] "m").toOption.map
      (fun t => (t.2.1.tapsD, t.2.1.placeholdersD, t.1.placeholdersD, t.1.slotsD)) =
      some ([], mA.placeholdersD, [],
        mA.slotsD.map (renameEntry "m") ++ mB.slotsD.map (renameEntry "m")) := by
  rcases hm : merge mA mB [] "m" with e | t
  · exact Except.noConfusion
      (hm.symm.trans (rfl : merge mA mB [] "m" = Except.ok _))
  · obtain ⟨ww, sA, oA⟩ := t
    have h := c6_merge_transfers_and_empties mA mB [] "m" ww sA oA hm
    dsimp only [Except.toOption, Option.map]
    rw [h.1.2.1, h.2.2.1, h.2.2.2.2.1, h.2.2.2.2.2.1]

/-- The exception, if any, that binding one pour key raises:
`maybe_get_slot`'s `AttributeError` for a `(tank, key)` tuple with an
unknown tank name, or the *UnknownFunnel* `ValueError` when the key resolves
neither to a placeholder nor to a slot. -/
def keyErr (ww : Waterwork) (k : InKey) : Option Err :=
  match maybeGetSlot ww k with
  | .error e => some e
  | .ok slR =>
    if (maybeGetPlaceholder ww k).isSome || slR.isSome then none
    else some Err.unknownFunnel

/-- The first exception pour's binding loop raises on a funnel dictionary,
if any (the loop stops at the first offending entry). -/
def firstKeyErr (ww : Waterwork) : List (InKey × Option Int) → Option Err
  | [] => none
  | e :: rest =>
    match keyErr ww e.1 with
    | some er => some er
    | none => firstKeyErr ww rest

/-- `maybe_get_slot` raises only the `AttributeError`, and only on a
`(tank, key)` tuple whose tank name is unknown. -/
theorem maybeGetSlot_error_iff (ww : Waterwork) (k : InKey) (e : Err) :
    maybeGetSlot ww k = Except.error e ↔
      (e = Err.attributeError ∧
        ∃ t sk, k = InKey.tup (t, sk) ∧ ww.tanksD.lookup t = none) := by
  cases k with
  | name s => simp [maybeGetSlot]
  | tup p =>
    obtain ⟨t, sk⟩ := p
    cases hl : ww.tanksD.lookup t with
    | none =>
      have hred : maybeGetSlot ww (InKey.tup (t, sk)) =
          Except.error Err.attributeError := by
        unfold maybeGetSlot
        dsimp only
        rw [hl]
      rw [hred]
      constructor
      · intro h
        injection h with h'
        exact ⟨h'.symm, t, sk, rfl, hl⟩
      · rintro ⟨rfl, -⟩
        rfl
    | some tank =>
      have hred : maybeGetSlot ww (InKey.tup (t, sk)) =
          Except.ok (if sk ∈ tank.slotKeys then some (t, sk) else none) := by
        unfold maybeGetSlot
        dsimp only
        rw [hl]
      rw [hred]
      constructor
      · intro h
        exact absurd h (by simp)
      · rintro ⟨rfl, t', sk', hk, hl'⟩
        injection hk with hk'
        rw [show t' = t from ((Prod.mk.injEq t sk t' sk').mp hk').1.symm] at hl'
        rw [hl] at hl'
        exact Option.noConfusion hl'
  | obj t => simp [maybeGetSlot]
  | phObj p => simp [maybeGetSlot]

/-- A key with no binding exception is bound successfully. -/
theorem bindPourEntry_ok (ww : Waterwork) (st : VState) (k : InKey) (v : Option Int)
    (h : keyErr ww k = none) : ∃ st', bindPourEntry ww st k v = Except.ok st' := by
  unfold keyErr at h
  cases hms : maybeGetSlot ww k with
  | error e => rw [hms] at h; simp at h
  | ok slR =>
    rw [hms] at h
    dsimp only at h
    cases hp : maybeGetPlaceholder ww k with
    | some p =>
      cases hq : ww.phSlotOf p with
      | none =>
        exact ⟨_, by
          unfold bindPourEntry
          rw [hms]
          dsimp only
          rw [hp]
          dsimp only
          rw [hq]⟩
      | some s =>
        exact ⟨_, by
          unfold bindPourEntry
          rw [hms]
          dsimp only
          rw [hp]
          dsimp only
          rw [hq]⟩
    | none =>
      cases slR with
      | none => rw [hp] at h; simp at h
      | some s =>
        cases hu : ww.slotUp s with
        | none =>
          exact ⟨_, by
            unfold bindPourEntry
            rw [hms]
            dsimp only
            rw [hp]
            dsimp only
            rw [hu]⟩
        | some u =>
          cases u with
          | tube t =>
            exact ⟨_, by
              unfold bindPourEntry
              rw [hms]
              dsimp only
              rw [hp]
              dsimp only
              rw [hu]⟩
          | ph q =>
            exact ⟨_, by
              unfold bindPourEntry
              rw [hms]
              dsimp only
              rw [hp]
              dsimp only
              rw [hu]⟩

/-- A key with a binding exception makes the binding iteration raise exactly
that exception. -/
theorem bindPourEntry_err (ww : Waterwork) (st : VState) (k : InKey) (v : Option Int)
    (er : Err) (h : keyErr ww k = some er) :
    bindPourEntry ww st k v = Except.error er := by
  unfold keyErr at h
  cases hms : maybeGetSlot ww k with
  | error e =>
    rw [hms] at h
    dsimp only at h
    injection h with h'
    subst h'
    unfold bindPourEntry
    rw [hms]
  | ok slR =>
    rw [hms] at h
    dsimp only at h
    by_cases hc : ((maybeGetPlaceholder ww k).isSome || slR.isSome) = true
    · rw [if_pos hc] at h
      exact absurd h (by simp)
    · rw [if_neg hc] at h
      injection h with h'
      subst h'
      rw [Bool.or_eq_true, not_or] at hc
      obtain ⟨h1, h2⟩ := hc
      have hp : maybeGetPlaceholder ww k = none := by
        cases hmp : maybeGetPlaceholder ww k
        · rfl
        · rw [hmp] at h1; simp at h1
      have hsl : slR = none := by
        cases slR
        · rfl
        · simp at h2
      subst hsl
      unfold bindPourEntry
      rw [hms]
      dsimp only
      rw [hp]

/-- **C7** (counterexample).  A key naming a *connected* (non-free) slot does
not raise *UnknownFunnel* as claimed: on `w2` the slot of tank `b` is fed by
the tube of tank `a` (so it is not a funnel — second conjunct), yet pour
accepts the key `b/slots/i`, binds it, and completes normally. -/
theorem c7_connected_slot_key_accepted :
    w2.funnelsD.lookup "b/slots/i" = none ∧
    w2.slotUp ("b", "i") = some (UpLink.tube ("a", "o")) ∧
    (pour w2 VState.empty
        [(.name "a/slots/i", some 4), (.name "b/slots/i", some 9)] "str").2 =
      Except.ok [(RKey.str "(b,o)", some 4)] :=
  ⟨rfl, rfl, rfl⟩

/-- **C7** (amended).  During pour's input binding a key can raise two
different exceptions, and the first offending dictionary entry determines
which: a `(tank, key)` tuple whose tank name is not in `self.tanks` raises
`AttributeError` (third conjunct: `maybe_get_slot` falls into
`isinstance(tank, sl.slot)` and the slot module has no attribute `slot`),
while a key that resolves neither to a Placeholder (by name or object) nor
to *any* slot of the waterwork (by name, or by tuple with a known tank name;
connected slots are accepted, Slot objects never) raises the *UnknownFunnel*
`ValueError` (fourth conjunct characterizes exactly when).  A dictionary
with no offending entry binds without raising.  After a successful binding,
if some funnel is still unset, pour raises *MissingInput* with the
post-binding state — before any tank executes. -/
theorem c7_binding_and_missing_check (ww : Waterwork) (st : VState)
    (xs : List (InKey × Option Int)) (kt : String) :
    ((∀ e ∈ xs, keyErr ww e.1 = none) → (bindPour ww st xs).2 = Except.ok ()) ∧
    (∀ er, firstKeyErr ww xs = some er → (pour ww st xs kt).2 = Except.error er) ∧
    (∀ t sk, keyErr ww (InKey.tup (t, sk)) = some Err.attributeError ↔
      ww.tanksD.lookup t = none) ∧
    (∀ k, keyErr ww k = some Err.unknownFunnel ↔
      (maybeGetPlaceholder ww k = none ∧ maybeGetSlot ww k = Except.ok none)) ∧
    (∀ st1, bindPour ww st xs = (st1, Except.ok ()) →
      funnelCheck ww st1 ≠ Except.ok () →
      pour ww st xs kt = (st1, Except.error Err.missingInput)) := by
  refine ⟨?_, ?_, ?_, ?_, ?_⟩
  · intro hall
    induction xs generalizing st with
    | nil => rfl
    | cons e rest ih =>
      obtain ⟨st', hst'⟩ := bindPourEntry_ok ww st e.1 e.2 (hall e (by simp))
      show (bindPour ww st (e :: rest)).2 = Except.ok ()
      unfold bindPour
      rw [hst']
      exact ih st' fun x hx => hall x (by simp [hx])
  · intro er
    induction xs generalizing st with
    | nil => intro h; simp [firstKeyErr] at h
    | cons e rest ih =>
      intro h
      cases hke : keyErr ww e.1 with
      | some er0 =>
        have her : er0 = er := by
          unfold firstKeyErr at h
          rw [hke] at h
          injection h
        subst her
        have hbe := bindPourEntry_err ww st e.1 e.2 er0 hke
        have hb : bindPour ww st (e :: rest) = (st, Except.error er0) := by
          have hred : bindPour ww st (e :: rest) =
              match bindPourEntry ww st e.1 e.2 with
              | Except.ok st1 => bindPour ww st1 rest
              | Except.error err => (st, Except.error err) := rfl
          rw [hred, hbe]
        rw [pour_of_bind_error ww st st (e :: rest) kt er0 hb]
      | none =>
        have hrest : firstKeyErr ww rest = some er := by
          unfold firstKeyErr at h
          rw [hke] at h
          exact h
        obtain ⟨st', hst'⟩ := bindPourEntry_ok ww st e.1 e.2 hke
        have hbind : bindPour ww st (e :: rest) = bindPour ww st' rest := by
          have hred : bindPour ww st (e :: rest) =
              match bindPourEntry ww st e.1 e.2 with
              | Except.ok st1 => bindPour ww st1 rest
              | Except.error err => (st, Except.error err) := rfl
          rw [hred, hst']
        have hstep : pour ww st (e :: rest) kt = pour ww st' rest kt := by
          unfold pour
          rw [hbind]
        rw [hstep]
        exact ih st' hrest
  · intro t sk
    cases hl : ww.tanksD.lookup t with
    | none =>
      constructor
      · intro _
        rfl
      · intro _
        have hms := (maybeGetSlot_error_iff ww (InKey.tup (t, sk))
          Err.attributeError).mpr ⟨rfl, t, sk, rfl, hl⟩
        unfold keyErr
        rw [hms]
    | some tank =>
      constructor
      · intro h
        exfalso
        have hred : maybeGetSlot ww (InKey.tup (t, sk)) =
            Except.ok (if sk ∈ tank.slotKeys then some (t, sk) else none) := by
          unfold maybeGetSlot
          dsimp only
          rw [hl]
        unfold keyErr at h
        rw [hred] at h
        dsimp only at h
        split at h
        · exact Option.noConfusion h
        · injection h with h'
          exact Err.noConfusion h'
      · intro h
        exact Option.noConfusion h
  · intro k
    cases hms : maybeGetSlot ww k with
    | error e =>
      constructor
      · intro h
        unfold keyErr at h
        rw [hms] at h
        dsimp only at h
        injection h with h'
        have hattr := ((maybeGetSlot_error_iff ww k e).mp hms).1
        rw [h'] at hattr
        exact absurd hattr (by simp)
      · rintro ⟨-, hok⟩
        exact Except.noConfusion hok
    | ok slR =>
      constructor
      · intro h
        unfold keyErr at h
        rw [hms] at h
        dsimp only at h
        by_cases hc : ((maybeGetPlaceholder ww k).isSome || slR.isSome) = true
        · rw [if_pos hc] at h
          exact absurd h (by simp)
        · rw [Bool.or_eq_true, not_or] at hc
          obtain ⟨h1, h2⟩ := hc
          have hp : maybeGetPlaceholder ww k = none := by
            cases hmp : maybeGetPlaceholder ww k
            · rfl
            · rw [hmp] at h1; simp at h1
          have hsl : slR = none := by
            cases slR
            · rfl
            · simp at h2
          subst hsl
          exact ⟨hp, rfl⟩
      · rintro ⟨hp, hok⟩
        have hsl : slR = none := by injection hok
        subst hsl
        unfold keyErr
        rw [hms]
        dsimp only
        rw [hp]
        simp
  · intro st1 hb hc
    exact pour_of_check_error ww st st1 xs kt hb hc

/-- Witness for `c7_binding_and_missing_check` on `w1`: a tuple key naming
the unknown tank `zzz` raises `AttributeError`; an unresolvable name key
raises *UnknownFunnel*; an empty funnel dictionary leaves the funnel unset
and pour raises *MissingInput* with the untouched initial state. -/
theorem c7_binding_witness :
    (pour w1 VState.empty [(.tup ("zzz", "i"), some 1)] "str").2 =
      Except.error Err.attributeError ∧
    (pour w1 VState.empty [(.name "zzz", some 1)] "str").2 =
      Except.error Err.unknownFunnel ∧
    pour w1 VState.empty [] "str" = (VState.empty, Except.error Err.missingInput) := by
  refine ⟨?_, ?_, ?_⟩
  · exact (c7_binding_and_missing_check w1 VState.empty
      [(.tup ("zzz", "i"), some 1)] "str").2.1 Err.attributeError (by decide)
  · exact (c7_binding_and_missing_check w1 VState.empty
      [(.name "zzz", some 1)] "str").2.1 Err.unknownFunnel (by decide)
  · exact (c7_binding_and_missing_check w1 VState.empty [] "str").2.2.2.2
      VState.empty rfl (fun hcon => Except.noConfusion hcon)

/-- When no entry is zero, the zero-patching item assignment is the
identity. -/
theorem map_patch_id (l : List ℚ) (h : l.any (· = 0) = false) :
    (l.map fun q => if q = 0 then 1 else q) = l := by
  induction l with
  | nil => rfl
  | cons a as ih =>
    simp only [List.any_cons, Bool.or_eq_false_iff] at h
    obtain ⟨h1, h2⟩ := h
    have ha : ¬(a = 0) := by simpa using h1
    simp only [List.map_cons, ih h2, if_neg ha]

/-- **C8** (counterexample).  The degenerate-statistics patch is not always a
patch: fitting under `norm_mode='mean_std'` with the default
`norm_axis=None` on the constant dataset `[5, 5]` produces a *scalar*
`np.float64` standard deviation of zero, and the item assignment
`self.std[self.std == 0] = 1.0` then raises `TypeError` (a numpy scalar is
not item-assignable) instead of patching it to 1. -/
theorem c8_scalar_zero_std_crashes :
    calcGlobalValues
      { normMode := .meanStd, normAxis := none, zeroDatetime := 0, unitsDiv := 1 }
      [[5], [5]] = Except.error Err.typeError := by
  have hz : qVar (flatten (tempOf
      { normMode := .meanStd, normAxis := none, zeroDatetime := 0, unitsDiv := 1 }
      [[5], [5]])) = 0 := by
    norm_num [tempOf, flatten, qVar, qMean]
  simp [calcGlobalValues, tempOf, nanstdSq, anyZero, patchZerosToOne,
    hz.symm ▸ (rfl : (0 : ℚ) = 0)]
  simp [tempOf] at hz
  simp [hz]

/-- **C8** (amended).  On a nonempty NaN-free fitting dataset: under
`mean_std` with `norm_axis=0` the standard deviations form an array and every
zero entry is replaced by 1 (a warning is emitted exactly when there was
one); under `mean_std` with `norm_axis=None` the standard deviation is a
numpy scalar, and when it is zero the patch raises `TypeError` instead
(nonzero scalars are returned unpatched and unwarned); under `min_max` with
`norm_axis=None`, `min == max` is patched to `max = min + 1` with a warning;
under `min_max` with `norm_axis=0` over two or more columns the unconditional
`if self.min == self.max` test raises numpy's ambiguous-truth `ValueError`
regardless of the data. -/
theorem c8_degenerate_statistics_patching (cfg : DTConfig)
    (data : List (List ℚ)) (hrows : data ≠ []) :
    (cfg.normMode = NormMode.meanStd → cfg.normAxis = some 0 →
      calcGlobalValues cfg data = Except.ok
        { inputDtypeSet := true
          mean := some (nanmean (some 0) (tempOf cfg data))
          stdSq := some (NpVal.arr (((colsOf (tempOf cfg data)).map qVar).map
            fun q => if q = 0 then 1 else q))
          minV := none
          maxV := none
          warned := ((colsOf (tempOf cfg data)).map qVar).any (· = 0) }) ∧
    (cfg.normMode = NormMode.meanStd → cfg.normAxis = none →
      qVar (flatten (tempOf cfg data)) = 0 →
      calcGlobalValues cfg data = Except.error Err.typeError) ∧
    (cfg.normMode = NormMode.meanStd → cfg.normAxis = none →
      qVar (flatten (tempOf cfg data)) ≠ 0 →
      calcGlobalValues cfg data = Except.ok
        { inputDtypeSet := true
          mean := some (nanmean none (tempOf cfg data))
          stdSq := some (NpVal.scalar (qVar (flatten (tempOf cfg data))))
          minV := none
          maxV := none
          warned := false }) ∧
    (cfg.normMode = NormMode.minMax → cfg.normAxis = none →
      calcGlobalValues cfg data = Except.ok
        { inputDtypeSet := true
          mean := none
          stdSq := none
          minV := some (NpVal.scalar (qMin (flatten (tempOf cfg data))))
          maxV := some (NpVal.scalar
            (if qMin (flatten (tempOf cfg data)) = qMax (flatten (tempOf cfg data))
             then qMax (flatten (tempOf cfg data)) + 1
             else qMax (flatten (tempOf cfg data))))
          warned := decide
            (qMin (flatten (tempOf cfg data)) = qMax (flatten (tempOf cfg data))) }) ∧
    (cfg.normMode = NormMode.minMax → cfg.normAxis = some 0 →
      2 ≤ (colsOf (tempOf cfg data)).length →
      calcGlobalValues cfg data = Except.error Err.ambiguousTruth) := by
  have hlen : ¬((tempOf cfg data).length = 0) := by
    simpa [tempOf] using hrows
  refine ⟨?_, ?_, ?_, ?_, ?_⟩
  · intro h1 h2
    unfold calcGlobalValues
    rw [h1]
    dsimp only
    rw [if_neg hlen, h2]
    dsimp only [nanstdSq, anyZero]
    by_cases hz : ((colsOf (tempOf cfg data)).map qVar).any (· = 0) = true
    · rw [if_pos hz]
      dsimp only [patchZerosToOne]
      rw [hz]
    · rw [if_neg hz]
      rw [Bool.not_eq_true] at hz
      rw [hz, map_patch_id _ hz]
  · intro h1 h2 hz
    unfold calcGlobalValues
    rw [h1]
    dsimp only
    rw [if_neg hlen, h2]
    dsimp only [nanstdSq, anyZero]
    rw [if_pos (by simpa using hz)]
    rfl
  · intro h1 h2 hz
    unfold calcGlobalValues
    rw [h1]
    dsimp only
    rw [if_neg hlen, h2]
    dsimp only [nanstdSq, anyZero]
    rw [if_neg (by simpa using hz)]
  · intro h1 h2
    unfold calcGlobalValues
    rw [h1]
    dsimp only
    rw [if_neg hlen, h2]
    dsimp only [nanmin, nanmax, eqTruth]
    by_cases hmm : qMin (flatten (tempOf cfg data)) = qMax (flatten (tempOf cfg data))
    · rw [decide_eq_true hmm, if_pos hmm]
      rfl
    · rw [decide_eq_false hmm, if_neg hmm]
  · intro h1 h2 hcols
    unfold calcGlobalValues
    rw [h1]
    dsimp only
    rw [if_neg hlen, h2]
    dsimp only [nanmin, nanmax, eqTruth]
    rcases hc : colsOf (tempOf cfg data) with _ | ⟨c1, ctail⟩
    · rw [hc] at hcols; simp at hcols
    · rcases ctail with _ | ⟨c2, cs⟩
      · rw [hc] at hcols; simp at hcols
      · rfl

/-- Witness for `c8_degenerate_statistics_patching`: under `mean_std` with
`norm_axis=0` on a two-column dataset whose second column is constant, the
zero variance entry is patched to 1 and a warning is emitted; under `min_max`
with `norm_axis=None` on a constant dataset the max becomes min + 1 with a
warning. -/
theorem c8_degenerate_statistics_witness :
    calcGlobalValues
      { normMode := .meanStd, normAxis := some 0, zeroDatetime := 0, unitsDiv := 1 }
      [[1, 2], [3, 2]] = Except.ok
        { inputDtypeSet := true
          mean := some (NpVal.arr [2, 2])
          stdSq := some (NpVal.arr [1, 1])
          minV := none
          maxV := none
          warned := true } ∧
    calcGlobalValues
      { normMode := .minMax, normAxis := none, zeroDatetime := 0, unitsDiv := 1 }
      [[4], [4]] = Except.ok
        { inputDtypeSet := true
          mean := none
          stdSq := none
          minV := some (NpVal.scalar 4)
          maxV := some (NpVal.scalar 5)
          warned := true } := by
  constructor
  · have h := (c8_degenerate_statistics_patching
      { normMode := .meanStd, normAxis := some 0, zeroDatetime := 0, unitsDiv := 1 }
      [[1, 2], [3, 2]] (by decide)).1 rfl rfl
    rw [h]
    norm_num [nanmean, tempOf, colsOf, flatten, qVar, qMean,
      List.range_succ, List.filterMap]
  · have h := (c8_degenerate_statistics_patching
      { normMode := .minMax, normAxis := none, zeroDatetime := 0, unitsDiv := 1 }
      [[4], [4]] (by decide)).2.2.2.1 rfl rfl
    rw [h]
    norm_num [tempOf, flatten, qMin, qMax]

/-- **C9** (counterexample).  A `DateTimeTransform` configured with
`norm_mode=None` (a valid configuration, and the default of
`attribute_dict`) computes statistics over the empty dataset without raising
anything: `calc_global_values` only checks the dataset length inside the
`mean_std` and `min_max` branches. -/
theorem c9_none_mode_empty_no_error :
    calcGlobalValues
      { normMode := .noMode, normAxis := none, zeroDatetime := 0, unitsDiv := 1 }
      [] = Except.ok
        { inputDtypeSet := true, mean := none, stdSq := none,
          minV := none, maxV := none, warned := false } := rfl

/-- **C9** (amended).  Asking a `DateTimeTransform` whose `norm_mode` is
`mean_std` or `min_max` to compute statistics over an empty dataset raises
the *EmptyFit* `ValueError`; with `norm_mode=None` no statistics are computed
and no error is raised. -/
theorem c9_empty_dataset_fit (cfg : DTConfig)
    (h : cfg.normMode = NormMode.meanStd ∨ cfg.normMode = NormMode.minMax) :
    calcGlobalValues cfg [] = Except.error Err.emptyFit := by
  rcases h with h | h <;> (unfold calcGlobalValues; rw [h]; rfl)

/-- Witness for `c9_empty_dataset_fit` at a concrete `mean_std`
configuration. -/
theorem c9_empty_dataset_fit_witness :
    calcGlobalValues
      { normMode := .meanStd, normAxis := none, zeroDatetime := 0, unitsDiv := 1 }
      [] = Except.error Err.emptyFit :=
  c9_empty_dataset_fit
    { normMode := .meanStd, normAxis := none, zeroDatetime := 0, unitsDiv := 1 }
    (Or.inl rfl)

end Waterworks
